import Mathlib

/-!
Verification of the crewai-terraform-module-generator pipeline.

This file gives a shallow embedding of the two core source files:

* `2_extract_schema_and_wiki.py` — the schema extractor (`extract_full_block_tree`
  with its inner `parse_block`, and the `__main__` driver), and
* `3_crew_terraform.py` — the module-generation pipeline (the `clean_content`
  sanitizer, the `schema_summary` / `format_block_tree` context renderer, the
  three task descriptions, and the post-generation output stage).

Python dictionaries parsed from JSON are modelled as association lists
(`List (String × _)`), `dict.get(k, default)` as `List.lookup` followed by
`Option.getD`, and Python truthiness of a dictionary as emptiness of the
association list.  Fields that the JSON document may omit are modelled as
`Option` with the `.get` default applied at the use site, exactly where the
Python code applies it.
-/

/-- One attribute as it appears in the raw schema JSON: the value of one entry
of a `"attributes"` object.  `required` and `computed` are the optional boolean
fields read by `attr.get("required", False)` / `attr.get("computed", False)`. -/
structure RawAttr where
  required : Option Bool
  computed : Option Bool
deriving DecidableEq, Repr

/-- One raw schema block, as read from the JSON document: an `"attributes"`
object (name/attribute pairs, in document enumeration order) and a
`"block_types"` object whose entries carry an optional `"min_items"` and a
nested `"block"`.  A `RawBlock.mk attrs bts` models the dictionary
`{"attributes": attrs, "block_types": bts}`. -/
inductive RawBlock : Type where
  | mk (attributes : List (String × RawAttr))
       (block_types : List (String × Option Nat × RawBlock))

/-- Accessor for the `"attributes"` entries of a raw block. -/
def RawBlock.attributes : RawBlock → List (String × RawAttr)
  | .mk attrs _ => attrs

/-- Accessor for the `"block_types"` entries of a raw block. -/
def RawBlock.block_types : RawBlock → List (String × Option Nat × RawBlock)
  | .mk _ bts => bts

/-- One entry of the extractor's output `"attributes"` list:
`{"name": name, "required": is_required}`. -/
structure Attribute where
  name : String
  required : Bool
deriving DecidableEq, Repr

/-- One entry of the extractor's output `"blocks"` list:
`{"name": ..., "min_items": ..., "attributes": ..., "blocks": ...}`. -/
inductive BlockNode : Type where
  | mk (name : String) (min_items : Nat)
       (attributes : List Attribute) (blocks : List BlockNode)

/-- Accessor for the `name` field of an output block node. -/
def BlockNode.name : BlockNode → String
  | .mk nm _ _ _ => nm

/-- Accessor for the `min_items` field of an output block node. -/
def BlockNode.min_items : BlockNode → Nat
  | .mk _ mi _ _ => mi

/-- Accessor for the `attributes` field of an output block node. -/
def BlockNode.attributes : BlockNode → List Attribute
  | .mk _ _ attrs _ => attrs

/-- Accessor for the `blocks` field of an output block node. -/
def BlockNode.blocks : BlockNode → List BlockNode
  | .mk _ _ _ blocks => blocks

mutual

/-- `parse_block` from `2_extract_schema_and_wiki.py` (lines 22–44): keeps an
attribute unless it is not required and computed (`continue` branch), recording
`{"name": name, "required": is_required}` for the kept ones, and recurses into
every `block_types` entry, attaching its declared `min_items` with default 0. -/
def parse_block : RawBlock → List Attribute × List BlockNode
  | .mk attrs bts =>
    let attributes := attrs.filterMap fun na =>
      let is_required := na.2.required.getD false
      let is_computed := na.2.computed.getD false
      if !is_required && is_computed then none  -- Skip computed-only fields
      else some { name := na.1, required := is_required }
    (attributes, parse_block_types bts)

/-- The loop `for block_name, block_info in block.get("block_types", {}).items()`
inside `parse_block`, building the `"blocks"` list in document order. -/
def parse_block_types : List (String × Option Nat × RawBlock) → List BlockNode
  | [] => []
  | (block_name, mi, blk) :: rest =>
    let sub := parse_block blk
    BlockNode.mk block_name (mi.getD 0) sub.1 sub.2 :: parse_block_types rest

end

/-- The value of one `resource_schemas` entry, modelled as the association list
of its JSON object; the Python code tests its truthiness (`if not resource`)
and then reads `resource["block"]`.  An empty list models the falsy `{}`. -/
abbrev ResourceEntry := List (String × RawBlock)

/-- One `provider_schemas` entry; `.get("resource_schemas", {})` is modelled by
the field (an absent field behaves as the empty catalog). -/
structure ProviderEntry where
  resource_schemas : List (String × ResourceEntry)

/-- The whole schema document; `.get("provider_schemas", {})` is modelled by
the field. -/
structure SchemaDoc where
  provider_schemas : List (String × ProviderEntry)

/-- The resource catalog looked up by lines 12–14 of
`2_extract_schema_and_wiki.py`:
`schema.get("provider_schemas", {})
  .get(f"registry.terraform.io/{provider_supplier}/{provider_name}", {})
  .get("resource_schemas", {})`. -/
def resource_catalog (schema : SchemaDoc) (provider_supplier provider_name : String) :
    List (String × ResourceEntry) :=
  (((schema.provider_schemas.lookup
      ("registry.terraform.io/" ++ provider_supplier ++ "/" ++ provider_name)).getD
    ⟨[]⟩).resource_schemas)

/-- `extract_full_block_tree` from `2_extract_schema_and_wiki.py` (lines 7–47),
with the schema document passed explicitly instead of being read from disk and
`provider_supplier` passed explicitly instead of being a global.  A raised
`ValueError` is modelled as `Except.error` carrying the message; the uncaught
`KeyError` from `resource["block"]` on a non-empty entry without a `"block"`
key is modelled as a distinct error. -/
def extract_full_block_tree (schema : SchemaDoc)
    (provider_supplier provider_name resource_type : String) :
    Except String (List Attribute × List BlockNode) :=
  let resources := resource_catalog schema provider_supplier provider_name
  let resource := (resources.lookup resource_type).getD []
  if resource.isEmpty then
    .error ("❌ Resource type \x27" ++ resource_type ++ "\x27 not found in schema.")
  else
    match resource.lookup "block" with
    | some root_block => .ok (parse_block root_block)
    | none => .error "KeyError: \x27block\x27"

/-- Result of one run of the `__main__` block of `2_extract_schema_and_wiki.py`:
the process exit code and the schema-summary files written (path paired with
the dumped `{"arguments": args, "block_tree": blocks}` content, kept
structured). -/
structure Script2Result where
  exit_code : Nat
  written : List (String × (List Attribute × List BlockNode))

/-- The `__main__` block of `2_extract_schema_and_wiki.py` (lines 66–91),
after argument parsing: on a `ValueError` from extraction it prints the message
and exits with code 1 writing nothing; otherwise it writes
`schemas/<resource_type>.json` and exits 0.  (The trailing markdown download is
pure network I/O and does not affect the written schema summary.) -/
def script2_main (schema : SchemaDoc)
    (provider_supplier provider_name _provider_version resource_type : String) :
    Script2Result :=
  match extract_full_block_tree schema provider_supplier provider_name resource_type with
  | .error _ => ⟨1, []⟩
  | .ok (args, blocks) =>
    ⟨0, [("schemas/" ++ resource_type ++ ".json", (args, blocks))]⟩

/-- The Python expression `"  " * indent`. -/
def indentPad (indent : Nat) : String :=
  String.join (List.replicate indent "  ")

mutual

/-- The body of one iteration of the loop in `format_block_tree` of
`3_crew_terraform.py` (lines 68–74): one line for the block showing name and
`min_items`, then its attributes tagged required/optional one indent deeper,
then (when the block has sub-blocks) the recursively formatted sub-blocks one
indent deeper. -/
def format_block_node : BlockNode → Nat → List String
  | .mk nm mi attrs subs, indent =>
    let head := indentPad indent ++ "- " ++ nm ++ " (min_items=" ++ toString mi ++ ")"
    let attrLines := attrs.map fun attr =>
      let required := if attr.required then "required" else "optional"
      indentPad (indent + 1) ++ "- " ++ attr.name ++ " (" ++ required ++ ")"
    let subLines := if subs.isEmpty then [] else format_block_tree subs (indent + 1)
    head :: (attrLines ++ subLines)

/-- `format_block_tree` from `3_crew_terraform.py` (lines 66–75): the lines
produced for each block of the list, in order. -/
def format_block_tree : List BlockNode → Nat → List String
  | [], _ => []
  | b :: rest, indent => format_block_node b indent ++ format_block_tree rest indent

end

/-- The `schema_summary` built once per run by lines 61–77 of
`3_crew_terraform.py`: header, flat argument list tagged required/optional,
then the formatted nested block tree joined with newlines. -/
def schema_summary (resource_type : String) (arguments : List Attribute)
    (block_tree : List BlockNode) : String :=
  let base := "You are generating Terraform code for resource " ++ resource_type ++
    ".\nArguments:\n"
  let base := arguments.foldl (fun acc arg =>
    let required := if arg.required then "required" else "optional"
    acc ++ "- " ++ arg.name ++ " (" ++ required ++ ")\n") base
  base ++ "\nNested Block Tree:\n" ++
    String.intercalate "\n" (format_block_tree block_tree 0)
/-- The description of `variables_task` (lines 92–159 of `3_crew_terraform.py`),
as a function of the `schema_summary` and `markdown_content` it interpolates.
Adjacent Python string literals are transcribed fragment by fragment; the
doubled braces appearing in non-f-string fragments are literal text in the
source and are kept doubled here. -/
def variables_task_description (schema_summary markdown_content : String) : String :=
  schema_summary ++ "\n\n" ++
  "Use the markdown below to extract the exact description text for each argument and block.\n" ++
  "\n" ++
  "--- START MARKDOWN ---\n" ++
  markdown_content ++ "\n" ++
  "--- END MARKDOWN ---\n" ++
  "\n" ++
  "Instructions for generating variables.tf:\n" ++
  "\n" ++
  "1. VARIABLE INCLUSION:\n" ++
  "   - Generate a valid `variables.tf` file\n" ++
  "   - Include ALL variables from the schema, both required and optional\n" ++
  "   - Do NOT include the Timeouts block as a variable\n" ++
  "\n" ++
  "2. VARIABLE TYPES:\n" ++
  "   - Use the correct Terraform type for each variable based on the schema\n" ++
  "   - For simple types: use `string`, `number`, `bool`\n" ++
  "   - For nested structures: use `object(\x7b...\x7d)` or `list(object(\x7b...\x7d))`\n" ++
  "   - For maps: use `map(string)`, `map(object(\x7b...\x7d))`, etc.\n" ++
  "   - For lists: use `list(string)`, `list(object(\x7b...\x7d))`, etc.\n" ++
  "\n" ++
  "3. DEFAULT VALUES:\n" ++
  "   - All optional variables MUST have a default value\n" ++
  "   - Required variables must NOT have a default value\n" ++
  "   - Default values by type:\n" ++
  "     * Optional string variables: `default = null`\n" ++
  "     * Optional number variables: `default = null`\n" ++
  "     * Optional bool variables: `default = null`\n" ++
  "     * Optional object variables: `default = \x7b\x7b\x7d\x7d`\n" ++
  "     * Optional map variables: `default = \x7b\x7b\x7d\x7d`\n" ++
  "     * Optional list variables: `default = []`\n" ++
  "\n" ++
  "4. OBJECT AND MAP DEFINITIONS:\n" ++
  "   - When defining `object()` types, wrap each property with `optional()` if that property does not require input\n" ++
  "   - Example: `object(\x7b\x7bname = string, location = optional(string), tags = optional(map(string))\x7d\x7d)`\n" ++
  "   - For nested objects, apply `optional()` consistently at each nesting level\n" ++
  "\n" ++
  "5. DESCRIPTIONS:\n" ++
  "   - Every variable MUST have a `description` property\n" ++
  "   - Copy the description text EXACTLY from the markdown documentation\n" ++
  "   - The `description` property MUST be the LAST property in each variable block\n" ++
  "   - For simple variables (string, number, bool, simple lists): use single-line or standard multi-line descriptions\n" ++
  "   - For complex variables (objects, maps with multiple properties): use extensive descriptions with the format:\n" ++
  "     description = <<DESCRIPTION\n" ++
  "     [Main description from markdown]\n" ++
  "     Properties:\n" ++
  "     - property_name: description of this property\n" ++
  "     - nested_property: description of nested property\n" ++
  "     DESCRIPTION\n" ++
  "   - The markers `<<DESCRIPTION` and `DESCRIPTION` are LITERAL text to be used\n" ++
  "\n" ++
  "6. FORMATTING:\n" ++
  "   - Use consistent indentation (2 spaces per level)\n" ++
  "   - Place each variable in a separate `variable` block\n" ++
  "   - Order variables logically: required variables first, then optional variables\n" ++
  "   - Do NOT include any comments in the code\n" ++
  "\n" ++
  "7. OUTPUT REQUIREMENTS:\n" ++
  "   - Output ONLY raw Terraform HCL code\n" ++
  "   - Do NOT wrap the output in markdown code blocks (no ```, no backticks)\n" ++
  "   - Do NOT include any commentary, explanations, or extra text\n" ++
  "   - The output should be ready to write directly to a .tf file"

/-- The description of `main_task` (lines 172–261 of `3_crew_terraform.py`),
as a function of the interpolated `schema_summary` and `resource_type`. -/
def main_task_description (schema_summary resource_type : String) : String :=
  schema_summary ++ "\n\n" ++
  "Generate a valid Terraform `main.tf` file that creates the resource " ++ resource_type ++ ".\n" ++
  "\n" ++
  "Instructions for generating main.tf:\n" ++
  "\n" ++
  "1. RESOURCE DEFINITION:\n" ++
  "   - Create a single resource block for the resource type\n" ++
  "   - Do NOT include a provider block or provider configuration\n" ++
  "   - Do NOT include the Timeouts block\n" ++
  "\n" ++
  "2. RESOURCE NAMING (CAF CONVENTIONS):\n" ++
  "   - The resource label (local identifier after the resource type) MUST use the exact abbreviation from Microsoft\x27s Cloud Adoption Framework (CAF)\n" ++
  "   - Find the abbreviation by matching the Azure resource type in the official CAF documentation:\n" ++
  "     https://raw.githubusercontent.com/MicrosoftDocs/cloud-adoption-framework/refs/heads/main/docs/ready/azure-best-practices/resource-abbreviations.md\n" ++
  "   - Example: For Route Server (Microsoft.Network/virtualHubs), use \x27rtserv\x27:\n" ++
  "     resource \"azurerm_route_server\" \"rtserv\" \x7b\x7b ... \x7d\x7d\n" ++
  "   - Example: For Storage Account (Microsoft.Storage/storageAccounts), use \x27st\x27:\n" ++
  "     resource \"azurerm_storage_account\" \"st\" \x7b\x7b ... \x7d\x7d\n" ++
  "\n" ++
  "3. VARIABLE REFERENCES:\n" ++
  "   - Reference all simple arguments (strings, numbers, bools, simple lists) using `var.variable_name`\n" ++
  "   - For required arguments: directly use `var.variable_name`\n" ++
  "   - For optional arguments with defaults: use `var.variable_name` (Terraform will use the default if not provided)\n" ++
  "\n" ++
  "4. DYNAMIC BLOCKS:\n" ++
  "   - Use `dynamic` blocks ONLY for properties listed in the Nested Block Tree\n" ++
  "   - Do NOT use dynamic blocks for simple arguments\n" ++
  "   - Each dynamic block must use the exact block name from the schema\n" ++
  "\n" ++
  "5. DYNAMIC BLOCK SYNTAX:\n" ++
  "   - Use `for_each` with implicit iterators\n" ++
  "   - The iterator name MUST match the block name (implicit iterator pattern)\n" ++
  "   - Do NOT create custom iterator names\n" ++
  "   - Access values using `block_name.value` syntax\n" ++
  "   - Example:\n" ++
  "     dynamic \"identity\" \x7b\x7b\n" ++
  "       for_each = var.identity != null ? [var.identity] : []\n" ++
  "       content \x7b\x7b\n" ++
  "         type = identity.value.type\n" ++
  "         identity_ids = identity.value.identity_ids\n" ++
  "       \x7d\x7d\n" ++
  "     \x7d\x7d\n" ++
  "\n" ++
  "6. NESTED DYNAMIC BLOCKS:\n" ++
  "   - When nesting dynamic blocks, each level accesses its parent via `parent_block_name.value`\n" ++
  "   - Do NOT use `var.*` to access variables inside nested content blocks\n" ++
  "   - Access parent dynamic block properties only via the iterator value reference\n" ++
  "   - Example:\n" ++
  "     dynamic \"site_config\" \x7b\x7b\n" ++
  "       for_each = var.site_config != null ? [var.site_config] : []\n" ++
  "       content \x7b\x7b\n" ++
  "         dynamic \"cors\" \x7b\x7b\n" ++
  "           for_each = site_config.value.cors != null ? [site_config.value.cors] : []\n" ++
  "           content \x7b\x7b\n" ++
  "             allowed_origins = cors.value.allowed_origins\n" ++
  "           \x7d\x7d\n" ++
  "         \x7d\x7d\n" ++
  "       \x7d\x7d\n" ++
  "     \x7d\x7d\n" ++
  "\n" ++
  "7. CONTENT BLOCKS:\n" ++
  "   - Do NOT use content\x7b\x7b\x7d\x7d blocks at the root resource level\n" ++
  "   - Content blocks should ONLY appear inside dynamic blocks\n" ++
  "   - The content block defines the structure of each iteration in a dynamic block\n" ++
  "\n" ++
  "8. CONDITIONAL LOGIC:\n" ++
  "   - For optional blocks, use conditional expressions in for_each:\n" ++
  "     for_each = var.block_name != null ? [var.block_name] : []\n" ++
  "   - For optional lists that may be empty:\n" ++
  "     for_each = var.block_list != null ? var.block_list : []\n" ++
  "   - This ensures the block is only created when the variable is provided\n" ++
  "   - IMPORTANT: Do NOT combine both `!= null` AND `length() > 0` checks - choose ONE based on the default value\n" ++
  "\n" ++
  "9. FORMATTING:\n" ++
  "   - Use consistent indentation (2 spaces per level)\n" ++
  "   - Place simple arguments before dynamic blocks\n" ++
  "   - Order arguments alphabetically within each section for consistency\n" ++
  "   - Do NOT include any comments in the code\n" ++
  "\n" ++
  "10. OUTPUT REQUIREMENTS:\n" ++
  "    - Output ONLY valid Terraform HCL code\n" ++
  "    - Do NOT wrap the output in markdown code blocks (no ```, no backticks)\n" ++
  "    - Do NOT include any commentary, explanations, or extra text\n" ++
  "    - The output should be ready to write directly to a .tf file"

/-- The description of `outputs_task` (lines 274–321 of `3_crew_terraform.py`),
as a function of the interpolated `resource_type`.  Note: unlike the other two
task descriptions, it does not interpolate `schema_summary`. -/
def outputs_task_description (resource_type : String) : String :=
  "Generate an outputs.tf file for the resource " ++ resource_type ++ ".\n" ++
  "\n" ++
  "Instructions for generating outputs.tf:\n" ++
  "\n" ++
  "1. OUTPUT CONTENT:\n" ++
  "   - Create a SINGLE output that exposes the resource ID\n" ++
  "   - The output name should be: `id`\n" ++
  "   - The output value should reference: `<resource_type>.<caf_abbreviation>.id`\n" ++
  "\n" ++
  "2. RESOURCE REFERENCE (CAF CONVENTIONS):\n" ++
  "   - The resource reference MUST use the exact abbreviation from Microsoft\x27s Cloud Adoption Framework (CAF)\n" ++
  "   - This abbreviation must match the one used in main.tf\n" ++
  "   - Find the abbreviation by matching the Azure resource type in the official CAF documentation:\n" ++
  "     https://raw.githubusercontent.com/MicrosoftDocs/cloud-adoption-framework/refs/heads/main/docs/ready/azure-best-practices/resource-abbreviations.md\n" ++
  "   - Example: For Route Server (Microsoft.Network/virtualHubs), use \x27rtserv\x27:\n" ++
  "     output \"id\" \x7b\x7b\n" ++
  "       value = azurerm_route_server.rtserv.id\n" ++
  "     \x7d\x7d\n" ++
  "   - Example: For Storage Account (Microsoft.Storage/storageAccounts), use \x27st\x27:\n" ++
  "     output \"id\" \x7b\x7b\n" ++
  "       value = azurerm_storage_account.st.id\n" ++
  "     \x7d\x7d\n" ++
  "\n" ++
  "3. OUTPUT STRUCTURE:\n" ++
  "   - Include a `description` property in the output block\n" ++
  "   - The description should be: \"The ID of the <resource_name>\"\n" ++
  "   - Example:\n" ++
  "     output \"id\" \x7b\x7b\n" ++
  "       description = \"The ID of the Route Server\"\n" ++
  "       value       = azurerm_route_server.rtserv.id\n" ++
  "     \x7d\x7d\n" ++
  "\n" ++
  "4. FORMATTING:\n" ++
  "   - Use consistent indentation (2 spaces per level)\n" ++
  "   - Align the `description` and `value` properties for readability\n" ++
  "   - Do NOT include any comments in the code\n" ++
  "\n" ++
  "5. OUTPUT REQUIREMENTS:\n" ++
  "   - Output ONLY valid Terraform HCL code\n" ++
  "   - Do NOT wrap the output in markdown code blocks (no ```, no backticks)\n" ++
  "   - Do NOT include any commentary, explanations, or extra text\n" ++
  "   - The output should be ready to write directly to a .tf file"


/-- The backtick character U+0060 (written via its code point). -/
def btick : Char := Char.ofNat 96

/-- Finds the first occurrence of a triple-backtick fence in a character list,
returning the characters before it and the characters after it.  This is the
search performed by the lazy group `(.*?)` followed by a literal fence in the
pattern of line 12 of `3_crew_terraform.py` (with `re.DOTALL`, `.` matches
newlines, so the search simply scans the whole text left to right). -/
def splitAtFence : List Char → Option (List Char × List Char)
  | c1 :: c2 :: c3 :: rest =>
    if c1 = btick ∧ c2 = btick ∧ c3 = btick then some ([], rest)
    else (splitAtFence (c2 :: c3 :: rest)).map fun p => (c1 :: p.1, p.2)
  | _ => none

/-- Drops characters up to and including the first newline, the search made by
the lazy optional group `(?:.*?\n)?` of the fence pattern. -/
def splitAfterNewline : List Char → Option (List Char)
  | [] => none
  | c :: rest => if c = '\n' then some rest else splitAfterNewline rest

/-- One attempted match of the fence pattern, positioned just after an opening
fence: the greedy optional group first tries to consume lazily up to the first
newline and then capture up to the first closing fence after it; if no closing
fence follows the first newline (further newline choices can only fail too, and
a fence never contains a newline), or if there is no newline at all, the group
matches empty and the capture runs up to the first closing fence after the
opening one.  Returns the captured group and the text after the match. -/
def fenceMatch (rest : List Char) : Option (List Char × List Char) :=
  match splitAfterNewline rest with
  | some after =>
    match splitAtFence after with
    | some (g1, rest') => some (g1, rest')
    | none => splitAtFence rest
  | none => splitAtFence rest

/-- `re.sub(r"```(?:.*?\n)?(.*?)```", r"\1", content, flags=re.DOTALL)` (line
12 of `3_crew_terraform.py`): scan left to right; at an opening fence, replace
the non-overlapping leftmost match by its captured group and continue after the
match (the replacement text is not rescanned); otherwise move one character
forward.  The `fuel` argument only makes the recursion structural; every scan
step consumes at least one character, so a scan started with
`fuel = l.length` (as `py_sub_fence` does) never exhausts it. -/
def py_sub_fence_fuel : Nat → List Char → List Char
  | 0, l => l
  | fuel + 1, c1 :: c2 :: c3 :: rest =>
    if c1 = btick ∧ c2 = btick ∧ c3 = btick then
      match fenceMatch rest with
      | some (g1, rest') => g1 ++ py_sub_fence_fuel fuel rest'
      | none => c1 :: py_sub_fence_fuel fuel (c2 :: c3 :: rest)
    else c1 :: py_sub_fence_fuel fuel (c2 :: c3 :: rest)
  | _ + 1, l => l

/-- The fence substitution of line 12, run on a whole character list. -/
def py_sub_fence (l : List Char) : List Char :=
  py_sub_fence_fuel l.length l

/-- Drops characters up to and including the first `*/`, the search made by
the lazy `.*?\*/` tail of the pattern `/\*\*.*?\*/` of line 14. -/
def splitAfterCommentClose : List Char → Option (List Char)
  | c1 :: c2 :: rest =>
    if c1 = '*' ∧ c2 = '/' then some rest
    else splitAfterCommentClose (c2 :: rest)
  | _ => none

/-- `re.sub(r'/\*\*.*?\*/', '', content, flags=re.DOTALL)` (line 14 of
`3_crew_terraform.py`): scan left to right; at `/**`, delete through the first
following `*/` and continue after the deleted match; otherwise move one
character forward.  As for the fence scan, `fuel` only makes the recursion
structural and is never exhausted when started at the list length. -/
def py_sub_doc_comment_fuel : Nat → List Char → List Char
  | 0, l => l
  | fuel + 1, c1 :: c2 :: c3 :: rest =>
    if c1 = '/' ∧ c2 = '*' ∧ c3 = '*' then
      match splitAfterCommentClose rest with
      | some rest' => py_sub_doc_comment_fuel fuel rest'
      | none => c1 :: py_sub_doc_comment_fuel fuel (c2 :: c3 :: rest)
    else c1 :: py_sub_doc_comment_fuel fuel (c2 :: c3 :: rest)
  | _ + 1, l => l

/-- The doc-comment deletion of line 14, run on a whole character list. -/
def py_sub_doc_comment (l : List Char) : List Char :=
  py_sub_doc_comment_fuel l.length l

/-- The whitespace characters stripped by Python's `str.strip()` that can occur
in this pipeline: space, tab, newline, carriage return, vertical tab, form
feed, and no-break space (U+00A0, which Python treats as whitespace). -/
def pyWhitespace (c : Char) : Bool :=
  c = ' ' || c = '\t' || c = '\n' || c = '\r' ||
  c = Char.ofNat 11 || c = Char.ofNat 12 || c = Char.ofNat 160

/-- Python `str.strip()`: remove leading and trailing whitespace. -/
def pyStrip (l : List Char) : List Char :=
  ((l.dropWhile pyWhitespace).reverse.dropWhile pyWhitespace).reverse

/-- The invisible characters removed by line 15 of `3_crew_terraform.py`:
U+200B, U+200C, U+200D, U+FEFF and U+00A0. -/
def invisibleChar (c : Char) : Bool :=
  c = Char.ofNat 0x200b || c = Char.ofNat 0x200c || c = Char.ofNat 0x200d ||
  c = Char.ofNat 0xFEFF || c = Char.ofNat 0xA0

/-- `clean_content` from `3_crew_terraform.py` (lines 11–18).  The two final
encode/decode round trips (`utf-8` with `errors='ignore'`, then `utf-8-sig`,
which adds and then strips a byte-order mark) are the identity on well-formed
Unicode text — a Lean `String` is a sequence of Unicode scalar values, so only
the trailing `.strip()` of line 17 remains. -/
def clean_content (content : String) : String :=
  let content := py_sub_fence content.data
  let content := content.filter (fun c => !(c = btick))
  let content := pyStrip (py_sub_doc_comment content)
  let content := pyStrip (content.filter (fun c => !invisibleChar c))
  ⟨pyStrip content⟩


/-- The `terraform.tf` version-pinning text built by the f-string at lines
340–349 of `3_crew_terraform.py` (braces written via their code points). -/
def terraform_tf (provider_supplier provider_name provider_version : String) : String :=
  "terraform \x7b\n" ++
  "  required_version = \"~> 1.8\"\n" ++
  "  required_providers \x7b\n" ++
  "    " ++ provider_name ++ " = \x7b\n" ++
  "      source  = \"" ++ provider_supplier ++ "/" ++ provider_name ++ "\"\n" ++
  "      version = \"~> " ++ provider_version ++ "\"\n" ++
  "    \x7d\n" ++
  "  \x7d\n" ++
  "\x7d\n"

/-- The `generated` dictionary of lines 336–350 of `3_crew_terraform.py`, as
the list of its entries in insertion order.  Each task's
`task.output.raw if task.output else ""` is modelled by an `Option String`
with default `""`. -/
def generated (variables_output main_output outputs_output : Option String)
    (provider_supplier provider_name provider_version : String) :
    List (String × String) :=
  [("variables.tf", clean_content (variables_output.getD "")),
   ("main.tf", clean_content (main_output.getD "")),
   ("outputs.tf", clean_content (outputs_output.getD "")),
   ("terraform.tf", terraform_tf provider_supplier provider_name provider_version)]

/-- A filesystem operation performed by the output loop: `os.makedirs(...,
exist_ok=True)`, `open(path, 'w')` followed by `write(content)`, or a rename
(listed so that the absence of any temp-then-rename discipline in the trace is
expressible; the script never performs one). -/
inductive FsOp where
  | mkdir (path : String)
  | write (path content : String)
  | rename (src dst : String)
deriving DecidableEq

/-- Whether an operation is a rename. -/
def FsOp.isRename : FsOp → Bool
  | .rename _ _ => true
  | _ => false

/-- The path of a write operation, if any. -/
def FsOp.writePath : FsOp → Option String
  | .write p _ => some p
  | _ => none

/-- Python `str.lower()` on the resource type, character by character (resource
types are ASCII identifiers, for which `Char.toLower` agrees with Python). -/
def pyLower (s : String) : String :=
  ⟨s.data.map Char.toLower⟩

/-- The output stage of `3_crew_terraform.py` (lines 352–361), as the sequence
of filesystem operations it performs: create the module folder
`modules/<resource_type.lower()>` (idempotently, `exist_ok=True`), then for
each `generated` entry whose content is truthy (non-empty), open its final
path for writing and write the content.  No other operations occur; in
particular there is no consistency check between the artifacts and no
temporary-file or rename step. -/
def output_stage (variables_output main_output outputs_output : Option String)
    (provider_supplier provider_name provider_version resource_type : String) :
    List FsOp :=
  let g := generated variables_output main_output outputs_output
    provider_supplier provider_name provider_version
  let output_folder := "modules/" ++ pyLower resource_type
  FsOp.mkdir output_folder ::
    (g.filter fun fc => fc.2 != "").map fun fc =>
      FsOp.write (output_folder ++ "/" ++ fc.1) fc.2

/-- A simple filesystem state: file contents by path, and the set of existing
directories. -/
structure Fs where
  files : String → Option String
  dirs : String → Bool

/-- Effect of one operation on a filesystem: `mkdir` with `exist_ok=True`
ensures the directory exists (a no-op when it already does), a write replaces
whatever content the path previously had (`open(path, 'w')` truncates), and a
rename moves the source's content to the destination. -/
def applyOp (fs : Fs) : FsOp → Fs
  | .mkdir p => { fs with dirs := fun q => if q = p then true else fs.dirs q }
  | .write p c => { fs with files := fun q => if q = p then some c else fs.files q }
  | .rename src dst =>
    { fs with files := fun q =>
        if q = dst then fs.files src
        else if q = src then none
        else fs.files q }

/-- Effect of a whole trace, applied left to right. -/
def applyTrace (fs : Fs) : List FsOp → Fs
  | [] => fs
  | op :: ops => applyTrace (applyOp fs op) ops

mutual

/-- All attributes appearing in an output block node, at any nesting depth. -/
def nodeAttrsAll : BlockNode → List Attribute
  | .mk _ _ attrs blocks => attrs ++ nodesAttrsAll blocks

/-- All attributes appearing in a list of output block nodes, at any depth. -/
def nodesAttrsAll : List BlockNode → List Attribute
  | [] => []
  | b :: bs => nodeAttrsAll b ++ nodesAttrsAll bs

end

/-- Every attribute appearing anywhere in the extractor's output for a raw
block: the flat argument list plus the attributes of every block of the block
tree, at any nesting depth. -/
def extractedAttrs (b : RawBlock) : List Attribute :=
  (parse_block b).1 ++ nodesAttrsAll (parse_block b).2

mutual

/-- All attribute declarations of a raw source block, at any nesting depth. -/
def rawAttrsAll : RawBlock → List (String × RawAttr)
  | .mk attrs bts => attrs ++ rawBtsAttrsAll bts

/-- All attribute declarations inside a list of raw `block_types` entries. -/
def rawBtsAttrsAll : List (String × Option Nat × RawBlock) → List (String × RawAttr)
  | [] => []
  | (_, _, blk) :: rest => rawAttrsAll blk ++ rawBtsAttrsAll rest

end

mutual

/-- Claim C7's correspondence between one output block node and the source
`block_types` entry it was built from: same name, the declared `min_items`
with default 0 when the document omits it, attribute names in the document's
own enumeration order (an order-preserving selection — sublist — of the source
attribute names), and recursively the same for the nested blocks, which are
paired one to one in document order. -/
def C7NodeOk : BlockNode → (String × Option Nat × RawBlock) → Prop
  | .mk nm mi attrs blocks, (src_nm, src_mi, src_blk) =>
    nm = src_nm ∧ mi = src_mi.getD 0 ∧
    List.Sublist (attrs.map Attribute.name) (src_blk.attributes.map Prod.fst) ∧
    C7NodesOk blocks src_blk.block_types

/-- Pairwise correspondence, in order, between output nodes and source
`block_types` entries (in particular the two lists have the same length, so no
declared block is dropped, duplicated or re-ordered). -/
def C7NodesOk : List BlockNode → List (String × Option Nat × RawBlock) → Prop
  | [], [] => True
  | node :: nodes, bt :: bts => C7NodeOk node bt ∧ C7NodesOk nodes bts
  | _, _ => False

end

/-- Structural Boolean prefix test on character lists. -/
def isPrefixOfB : List Char → List Char → Bool
  | [], _ => true
  | _ :: _, [] => false
  | c :: cs, d :: ds => c == d && isPrefixOfB cs ds

/-- Structural Boolean infix (substring) test on character lists; written as a
plain structural recursion so that concrete instances evaluate by `rfl`. -/
def isInfixOfB : List Char → List Char → Bool
  | needle, [] => needle.isEmpty
  | needle, d :: ds => isPrefixOfB needle (d :: ds) || isInfixOfB needle ds

/-- The final paths of the four module files of one resource type. -/
def module_file_paths (resource_type : String) : List String :=
  ["variables.tf", "main.tf", "outputs.tf", "terraform.tf"].map
    fun fn => "modules/" ++ pyLower resource_type ++ "/" ++ fn

/-- C4: when the requested resource type is absent from the schema document's
resource catalog for the given provider identity, extraction fails with the
not-found error naming the missing resource type, and the script-2 run exits
with code 1 having written no schema-summary output. -/
theorem extract_missing_resource_fails (schema : SchemaDoc)
    (provider_supplier provider_name provider_version resource_type : String)
    (h : (resource_catalog schema provider_supplier provider_name).lookup
      resource_type = none) :
    extract_full_block_tree schema provider_supplier provider_name resource_type =
      .error ("❌ Resource type \x27" ++ resource_type ++ "\x27 not found in schema.") ∧
    script2_main schema provider_supplier provider_name provider_version
      resource_type = ⟨1, []⟩ := by
  have he : extract_full_block_tree schema provider_supplier provider_name
      resource_type =
      .error ("❌ Resource type \x27" ++ resource_type ++ "\x27 not found in schema.") := by
    simp [extract_full_block_tree, h]
  refine ⟨he, ?_⟩
  unfold script2_main
  rw [he]

/-- Witness for `extract_missing_resource_fails`: a catalog that lists a
different resource only. -/
theorem extract_missing_resource_fails_witness :
    ((resource_catalog
        ⟨[("registry.terraform.io/hashicorp/azurerm",
           ⟨[("azurerm_other", [("block", .mk [] [])])]⟩)]⟩
        "hashicorp" "azurerm").lookup "azurerm_storage_account" = none) ∧
    (extract_full_block_tree
        ⟨[("registry.terraform.io/hashicorp/azurerm",
           ⟨[("azurerm_other", [("block", .mk [] [])])]⟩)]⟩
        "hashicorp" "azurerm" "azurerm_storage_account" =
      .error "❌ Resource type \x27azurerm_storage_account\x27 not found in schema." ∧
     script2_main
        ⟨[("registry.terraform.io/hashicorp/azurerm",
           ⟨[("azurerm_other", [("block", .mk [] [])])]⟩)]⟩
        "hashicorp" "azurerm" "4.26.0" "azurerm_storage_account" = ⟨1, []⟩) :=
  ⟨by rfl,
   extract_missing_resource_fails _ "hashicorp" "azurerm" "4.26.0"
     "azurerm_storage_account" (by rfl)⟩

/-- C10: an entry that is present but empty (falsy in Python) triggers the very
same not-found error as an absent entry: the two cases produce identical
results at the extractor's interface. -/
theorem extract_empty_entry_indistinguishable (s1 s2 : SchemaDoc)
    (provider_supplier provider_name resource_type : String)
    (h1 : (resource_catalog s1 provider_supplier provider_name).lookup
      resource_type = none)
    (h2 : (resource_catalog s2 provider_supplier provider_name).lookup
      resource_type = some []) :
    extract_full_block_tree s2 provider_supplier provider_name resource_type =
      .error ("❌ Resource type \x27" ++ resource_type ++ "\x27 not found in schema.") ∧
    extract_full_block_tree s1 provider_supplier provider_name resource_type =
    extract_full_block_tree s2 provider_supplier provider_name resource_type := by
  have he2 : extract_full_block_tree s2 provider_supplier provider_name
      resource_type =
      .error ("❌ Resource type \x27" ++ resource_type ++ "\x27 not found in schema.") := by
    simp [extract_full_block_tree, h2]
  have he1 : extract_full_block_tree s1 provider_supplier provider_name
      resource_type =
      .error ("❌ Resource type \x27" ++ resource_type ++ "\x27 not found in schema.") := by
    simp [extract_full_block_tree, h1]
  exact ⟨he2, he1.trans he2.symm⟩

/-- Witness for `extract_empty_entry_indistinguishable`: one catalog without
the key, one mapping it to the empty entry `{}`. -/
theorem extract_empty_entry_indistinguishable_witness :
    ((resource_catalog ⟨[]⟩ "hashicorp" "azurerm").lookup "azurerm_x" = none) ∧
    ((resource_catalog
        ⟨[("registry.terraform.io/hashicorp/azurerm", ⟨[("azurerm_x", [])]⟩)]⟩
        "hashicorp" "azurerm").lookup "azurerm_x" = some []) ∧
    (extract_full_block_tree
        ⟨[("registry.terraform.io/hashicorp/azurerm", ⟨[("azurerm_x", [])]⟩)]⟩
        "hashicorp" "azurerm" "azurerm_x" =
      .error "❌ Resource type \x27azurerm_x\x27 not found in schema." ∧
     extract_full_block_tree ⟨[]⟩ "hashicorp" "azurerm" "azurerm_x" =
     extract_full_block_tree
        ⟨[("registry.terraform.io/hashicorp/azurerm", ⟨[("azurerm_x", [])]⟩)]⟩
        "hashicorp" "azurerm" "azurerm_x") :=
  ⟨by rfl, by rfl,
   extract_empty_entry_indistinguishable ⟨[]⟩ _ "hashicorp" "azurerm" "azurerm_x"
     (by rfl) (by rfl)⟩

/-- Names of the entries kept by a name-preserving selection form an
order-preserving selection (sublist) of the source names. -/
theorem filterMap_names_sublist (attrs : List (String × RawAttr))
    (f : String × RawAttr → Option Attribute)
    (hf : ∀ na a, f na = some a → a.name = na.1) :
    List.Sublist ((attrs.filterMap f).map Attribute.name) (attrs.map Prod.fst) := by
  induction attrs with
  | nil => simp
  | cons na rest ih =>
    cases h : f na with
    | none =>
      simp only [List.filterMap_cons, h, List.map_cons]
      exact ih.cons na.1
    | some a =>
      simp only [List.filterMap_cons, h, List.map_cons]
      rw [hf na a h]
      exact ih.cons₂ na.1

/-- The attribute-selection function used inside `parse_block` preserves the
source attribute's name. -/
theorem parse_block_selector_name (na : String × RawAttr) (a : Attribute)
    (h : (let is_required := na.2.required.getD false
          let is_computed := na.2.computed.getD false
          if !is_required && is_computed then none
          else some { name := na.1, required := is_required  : Attribute}) = some a) :
    a.name = na.1 := by
  dsimp only at h
  split at h
  · exact absurd h (by simp)
  · cases h
    rfl

mutual

/-- For every raw block, `parse_block` keeps the flat attribute names in
document order and satisfies the C7 correspondence on the whole block tree. -/
theorem parse_block_order_ok (blk : RawBlock) :
    List.Sublist (((parse_block blk).1).map Attribute.name)
      (blk.attributes.map Prod.fst) ∧
    C7NodesOk (parse_block blk).2 blk.block_types := by
  match blk with
  | .mk attrs bts =>
    refine ⟨?_, ?_⟩
    · simp only [parse_block, RawBlock.attributes]
      exact filterMap_names_sublist attrs _ parse_block_selector_name
    · simpa only [parse_block, RawBlock.block_types] using
        parse_block_types_order_ok bts

/-- Companion statement for `parse_block_types` on a list of source entries. -/
theorem parse_block_types_order_ok (bts : List (String × Option Nat × RawBlock)) :
    C7NodesOk (parse_block_types bts) bts := by
  match bts with
  | [] =>
    simp only [parse_block_types, C7NodesOk]
  | (nm, mi, blk) :: rest =>
    have h1 := parse_block_order_ok blk
    have h2 := parse_block_types_order_ok rest
    simp only [parse_block_types, C7NodesOk, C7NodeOk]
    exact ⟨⟨trivial, trivial, h1.1, h1.2⟩, h2⟩

end

/-- Any attribute produced by the attribute-selection function of `parse_block`
comes from a source attribute with the same name, carries the source's
`required` flag, and the source satisfied `required ∨ ¬computed`. -/
theorem parse_block_selector_sound (na : String × RawAttr) (a : Attribute)
    (h : (let is_required := na.2.required.getD false
          let is_computed := na.2.computed.getD false
          if !is_required && is_computed then none
          else some { name := na.1, required := is_required  : Attribute}) = some a) :
    na.1 = a.name ∧ na.2.required.getD false = a.required ∧
      (na.2.required.getD false = true ∨ na.2.computed.getD false = false) := by
  dsimp only at h
  split at h
  · exact absurd h (by simp)
  · next hcond =>
    cases h
    refine ⟨rfl, rfl, ?_⟩
    cases hr : na.2.required.getD false with
    | true => exact Or.inl rfl
    | false =>
      cases hc : na.2.computed.getD false with
      | false => exact Or.inr rfl
      | true => exact absurd (by rw [hr, hc]; rfl) hcond

mutual

/-- C3, block form: every attribute anywhere in the extractor's output for a
raw block comes from a source attribute declaration (at some depth) whose
flags satisfied `required ∨ ¬computed`. -/
theorem extracted_attr_from_source (blk : RawBlock) :
    ∀ a ∈ extractedAttrs blk, ∃ na ∈ rawAttrsAll blk,
      na.1 = a.name ∧ na.2.required.getD false = a.required ∧
      (na.2.required.getD false = true ∨ na.2.computed.getD false = false) := by
  match blk with
  | .mk attrs bts =>
    intro a ha
    rw [extractedAttrs] at ha
    simp only [parse_block] at ha
    rcases List.mem_append.mp ha with hl | hr
    · rcases List.mem_filterMap.mp hl with ⟨na, hna, hf⟩
      refine ⟨na, ?_, parse_block_selector_sound na a hf⟩
      rw [rawAttrsAll]
      exact List.mem_append_left _ hna
    · rcases extracted_attr_from_source_bts bts a hr with ⟨na, hna, hrest⟩
      refine ⟨na, ?_, hrest⟩
      rw [rawAttrsAll]
      exact List.mem_append_right _ hna

/-- C3, list form: the same statement for the nodes built from a list of
source `block_types` entries. -/
theorem extracted_attr_from_source_bts (bts : List (String × Option Nat × RawBlock)) :
    ∀ a ∈ nodesAttrsAll (parse_block_types bts), ∃ na ∈ rawBtsAttrsAll bts,
      na.1 = a.name ∧ na.2.required.getD false = a.required ∧
      (na.2.required.getD false = true ∨ na.2.computed.getD false = false) := by
  match bts with
  | [] =>
    intro a ha
    simp [parse_block_types, nodesAttrsAll] at ha
  | (nm, mi, blk) :: rest =>
    intro a ha
    simp only [parse_block_types, nodesAttrsAll, nodeAttrsAll] at ha
    rcases List.mem_append.mp ha with hl | hr
    · have hblk : a ∈ extractedAttrs blk := by
        rw [extractedAttrs]
        exact hl
      rcases extracted_attr_from_source blk a hblk with ⟨na, hna, hrest⟩
      refine ⟨na, ?_, hrest⟩
      rw [rawBtsAttrsAll]
      exact List.mem_append_left _ hna
    · rcases extracted_attr_from_source_bts rest a hr with ⟨na, hna, hrest⟩
      refine ⟨na, ?_, hrest⟩
      rw [rawBtsAttrsAll]
      exact List.mem_append_right _ hna

end

/-- `pyStrip` is `dropWhile` on the left composed with `rdropWhile` on the
right. -/
theorem pyStrip_eq_rdropWhile_dropWhile (l : List Char) :
    pyStrip l = List.rdropWhile pyWhitespace (l.dropWhile pyWhitespace) := rfl

/-- Characters surviving `splitAfterCommentClose` come from the input. -/
theorem splitAfterCommentClose_subset :
    ∀ {l r : List Char}, splitAfterCommentClose l = some r → ∀ c ∈ r, c ∈ l := by
  intro l
  induction l with
  | nil => intro r h; simp [splitAfterCommentClose] at h
  | cons c1 t ih =>
    intro r h c hc
    match t with
    | [] => simp [splitAfterCommentClose] at h
    | c2 :: rest =>
      rw [splitAfterCommentClose] at h
      split at h
      · cases h
        exact List.mem_cons_of_mem _ (List.mem_cons_of_mem _ hc)
      · exact List.mem_cons_of_mem _ (ih h c hc)

/-- Characters surviving the doc-comment scan come from the input. -/
theorem py_sub_doc_comment_fuel_subset :
    ∀ (fuel : Nat) (l : List Char), ∀ c ∈ py_sub_doc_comment_fuel fuel l, c ∈ l := by
  intro fuel
  induction fuel with
  | zero => intro l c hc; exact hc
  | succ n ih =>
    intro l c hc
    match l with
    | [] => exact hc
    | [c1] => exact hc
    | [c1, c2] => exact hc
    | c1 :: c2 :: c3 :: rest =>
      rw [py_sub_doc_comment_fuel] at hc
      split at hc
      · split at hc
        · next rest' hclose =>
          exact List.mem_cons_of_mem _ (List.mem_cons_of_mem _
            (List.mem_cons_of_mem _
              (splitAfterCommentClose_subset hclose c (ih rest' c hc))))
        · rcases List.mem_cons.mp hc with h | h
          · exact h ▸ List.mem_cons_self _ _
          · exact List.mem_cons_of_mem _ (ih _ c h)
      · rcases List.mem_cons.mp hc with h | h
        · exact h ▸ List.mem_cons_self _ _
        · exact List.mem_cons_of_mem _ (ih _ c h)

/-- Characters surviving `pyStrip` come from the input. -/
theorem pyStrip_subset (l : List Char) : ∀ c ∈ pyStrip l, c ∈ l := by
  intro c hc
  rw [pyStrip_eq_rdropWhile_dropWhile] at hc
  have h1 : c ∈ (l.dropWhile pyWhitespace) :=
    (List.rdropWhile_prefix _ _).sublist.subset hc
  exact (List.dropWhile_sublist _).subset h1

/-- After line 13's `content.replace("\x60", "")` the text contains no backtick;
the remaining pipeline stages only drop characters, so neither does the final
sanitized text, and the invisible characters removed at line 15 are likewise
absent from it. -/
theorem clean_content_char_free (x : String) :
    ∀ c ∈ (clean_content x).data, c ≠ btick ∧ invisibleChar c = false := by
  intro c hc
  have h4 := pyStrip_subset _ c hc
  have h3 := pyStrip_subset _ c h4
  rcases List.mem_filter.mp h3 with ⟨h2, hinv⟩
  have h2' := pyStrip_subset _ c h2
  have h1 := py_sub_doc_comment_fuel_subset _ _ c h2'
  rcases List.mem_filter.mp h1 with ⟨_, hbt⟩
  refine ⟨by simpa using hbt, by simpa using hinv⟩

/-- The fence scan is the identity on text containing no backtick (a match
needs an opening fence). -/
theorem py_sub_fence_fuel_of_no_btick :
    ∀ (fuel : Nat) (l : List Char), (∀ c ∈ l, c ≠ btick) →
      py_sub_fence_fuel fuel l = l := by
  intro fuel
  induction fuel with
  | zero => intro l _; rfl
  | succ n ih =>
    intro l hl
    match l with
    | [] => rfl
    | [c1] => rfl
    | [c1, c2] => rfl
    | c1 :: c2 :: c3 :: rest =>
      rw [py_sub_fence_fuel]
      have hc1 : c1 ≠ btick := hl c1 (List.mem_cons_self _ _)
      rw [if_neg (by intro hand; exact hc1 hand.1)]
      congr 1
      exact ih _ fun c hc => hl c (List.mem_cons_of_mem _ hc)

/-- The doc-comment scan is the identity on text containing no `/`. -/
theorem py_sub_doc_comment_fuel_of_no_slash :
    ∀ (fuel : Nat) (l : List Char), (∀ c ∈ l, c ≠ '/') →
      py_sub_doc_comment_fuel fuel l = l := by
  intro fuel
  induction fuel with
  | zero => intro l _; rfl
  | succ n ih =>
    intro l hl
    match l with
    | [] => rfl
    | [c1] => rfl
    | [c1, c2] => rfl
    | c1 :: c2 :: c3 :: rest =>
      rw [py_sub_doc_comment_fuel]
      have hc1 : c1 ≠ '/' := hl c1 (List.mem_cons_self _ _)
      rw [if_neg (by intro hand; exact hc1 hand.1)]
      congr 1
      exact ih _ fun c hc => hl c (List.mem_cons_of_mem _ hc)

/-- `pyStrip` is idempotent: the stripped text has no leading or trailing
whitespace left to remove. -/
theorem pyStrip_idempotent (l : List Char) : pyStrip (pyStrip l) = pyStrip l := by
  rw [pyStrip_eq_rdropWhile_dropWhile, pyStrip_eq_rdropWhile_dropWhile]
  set A := l.dropWhile pyWhitespace with hA
  have hdwA : A.dropWhile pyWhitespace = A := by
    rw [hA]
    exact List.dropWhile_idempotent _ _
  have hdwrd : (List.rdropWhile pyWhitespace A).dropWhile pyWhitespace =
      List.rdropWhile pyWhitespace A := by
    rw [List.dropWhile_eq_self_iff]
    intro hlen
    have hpre : List.IsPrefix (List.rdropWhile pyWhitespace A) A :=
      List.rdropWhile_prefix _ _
    have hlenA : 0 < A.length := lt_of_lt_of_le hlen hpre.length_le
    have hget : (List.rdropWhile pyWhitespace A).get ⟨0, hlen⟩ = A.get ⟨0, hlenA⟩ := by
      simpa [List.get_eq_getElem] using hpre.getElem hlen
    rw [hget]
    exact List.dropWhile_eq_self_iff.mp hdwA hlenA
  rw [hdwrd]
  exact List.rdropWhile_idempotent _ _

/-- Wrapper form of `py_sub_fence_fuel_of_no_btick`. -/
theorem py_sub_fence_of_no_btick (l : List Char) (h : ∀ c ∈ l, c ≠ btick) :
    py_sub_fence l = l :=
  py_sub_fence_fuel_of_no_btick _ _ h

/-- `clean_content` written as a single composition (the `let` chain of lines
11–18 inlined). -/
theorem clean_content_eq (s : String) :
    clean_content s = ⟨pyStrip ((pyStrip ((pyStrip (py_sub_doc_comment
      ((py_sub_fence s.data).filter fun c => !(c = btick)))).filter
        fun c => !invisibleChar c)))⟩ := rfl

/-- The sanitized text carries no leading or trailing whitespace: stripping it
again changes nothing. -/
theorem clean_content_stripped (x : String) :
    pyStrip (clean_content x).data = (clean_content x).data :=
  pyStrip_idempotent _

/-- C5 (amended): the sanitizer is idempotent on every text whose sanitized
form is left unchanged by the doc-comment deletion pass — in particular on any
text whose sanitized form contains no further `/**`…`*/` match. -/
theorem clean_content_idempotent_of_no_comment_residue (x : String)
    (h : py_sub_doc_comment (clean_content x).data = (clean_content x).data) :
    clean_content (clean_content x) = clean_content x := by
  have hfree := clean_content_char_free x
  have hbt : ∀ c ∈ (clean_content x).data, c ≠ btick := fun c hc => (hfree c hc).1
  have hinv : ∀ c ∈ (clean_content x).data, invisibleChar c = false :=
    fun c hc => (hfree c hc).2
  have hstrip := clean_content_stripped x
  have e1 : py_sub_fence (clean_content x).data = (clean_content x).data :=
    py_sub_fence_of_no_btick _ hbt
  have e2 : ((clean_content x).data.filter fun c => !(c = btick)) =
      (clean_content x).data :=
    List.filter_eq_self.mpr fun c hc => by simp [hbt c hc]
  have e3 : ((clean_content x).data.filter fun c => !invisibleChar c) =
      (clean_content x).data :=
    List.filter_eq_self.mpr fun c hc => by simp [hinv c hc]
  rw [clean_content_eq (clean_content x), e1, e2, h, hstrip, e3, hstrip, hstrip]

/-- C5, counterexample: the sanitizer is not idempotent.  One pass over
`/*/**a*/**b*/` deletes the leftmost `/**a*/`, gluing the surrounding text
into `/***b*/` — a fresh doc-comment match that only a second pass deletes. -/
theorem clean_content_not_idempotent :
    clean_content (clean_content "/*/**a*/**b*/") ≠
      clean_content "/*/**a*/**b*/" := by
  decide

/-- Witness for `clean_content_idempotent_of_no_comment_residue` at a fenced
input. -/
theorem clean_content_idempotent_witness :
    (py_sub_doc_comment (clean_content "```hcl\nfoo = 1```").data =
      (clean_content "```hcl\nfoo = 1```").data) ∧
    clean_content (clean_content "```hcl\nfoo = 1```") =
      clean_content "```hcl\nfoo = 1```" :=
  ⟨by decide, clean_content_idempotent_of_no_comment_residue _ (by decide)⟩

/-- C6 (amended): every sanitized text is free of backticks (hence of
code-fence markers) and of the zero-width/invisible characters and byte-order
mark; comment syntax other than a full `/**`…`*/` match is,
however, not removed. -/
theorem clean_content_no_btick_no_invisible (x : String) :
    ((clean_content x).data.all fun c => !(c == btick) && !invisibleChar c) = true := by
  rw [List.all_eq_true]
  intro c hc
  have hfc := clean_content_char_free x c hc
  simp [hfc.1, hfc.2]

/-- C6, counterexample: a plain `/* ... */` block comment (not `/**`) passes
through the sanitizer untouched, so the sanitized result still contains
comment syntax. -/
theorem clean_content_keeps_comment_syntax :
    clean_content "/* x */" = "/* x */" ∧
    List.IsPrefix "/*".data (clean_content "/* x */").data :=
  ⟨by rfl, by decide⟩

/-- C3: every attribute appearing anywhere in the extractor's output — the
flat argument list or any block of the block tree — comes from a source
attribute declaration of the same name whose flags satisfied
`required ∨ ¬computed`; a computed-and-not-required attribute is never
included at any depth. -/
theorem extractor_never_includes_computed_only (blk : RawBlock) (a : Attribute)
    (ha : a ∈ extractedAttrs blk) :
    ∃ na ∈ rawAttrsAll blk, na.1 = a.name ∧ na.2.required.getD false = a.required ∧
      (na.2.required.getD false = true ∨ na.2.computed.getD false = false) :=
  extracted_attr_from_source blk a ha

/-- Witness for `extractor_never_includes_computed_only`: a block with one
required attribute, one computed-only attribute (dropped), and a nested block
with one plain optional attribute. -/
theorem extractor_never_includes_computed_only_witness :
    ((⟨"type", false⟩ : Attribute) ∈ extractedAttrs (.mk
        [("name", ⟨some true, none⟩), ("id", ⟨none, some true⟩)]
        [("identity", none, .mk [("type", ⟨none, some false⟩)] [])])) ∧
    (∃ na ∈ rawAttrsAll (RawBlock.mk
        [("name", ⟨some true, none⟩), ("id", ⟨none, some true⟩)]
        [("identity", none, .mk [("type", ⟨none, some false⟩)] [])]),
      na.1 = (⟨"type", false⟩ : Attribute).name ∧
      na.2.required.getD false = (⟨"type", false⟩ : Attribute).required ∧
      (na.2.required.getD false = true ∨ na.2.computed.getD false = false)) :=
  ⟨by decide, extractor_never_includes_computed_only _ _ (by decide)⟩

/-- C7: for every schema document block, the extractor's output carries, at
every depth, each nested block with its declared `min_items` (default 0 when
the document omits it), and lists attributes and nested blocks in the
document's own enumeration order (no re-sorting). -/
theorem extractor_keeps_declared_order_and_min_items (blk : RawBlock) :
    List.Sublist (((parse_block blk).1).map Attribute.name)
      (blk.attributes.map Prod.fst) ∧
    C7NodesOk (parse_block blk).2 blk.block_types :=
  parse_block_order_ok blk


/-- A list is a Boolean prefix of itself followed by anything. -/
theorem isPrefixOfB_append_self (l t : List Char) : isPrefixOfB l (l ++ t) = true := by
  induction l with
  | nil => rfl
  | cons c cs ih => simp [isPrefixOfB, ih]

/-- The Boolean infix test recognises every genuine decomposition. -/
theorem isInfixOfB_of_append (needle : List Char) :
    ∀ s t : List Char, isInfixOfB needle (s ++ needle ++ t) = true := by
  intro s
  induction s with
  | nil =>
    intro t
    match needle with
    | [] =>
      match t with
      | [] => rfl
      | d :: ds => simp [isInfixOfB, isPrefixOfB]
    | c :: cs =>
      have h := isPrefixOfB_append_self (c :: cs) t
      simp only [List.cons_append] at h
      simp [isInfixOfB, List.append_eq, h]
  | cons a s' ih =>
    intro t
    simp only [List.cons_append, isInfixOfB, List.append_eq]
    rw [ih t]
    simp

/-- Infix containment implies the Boolean infix test succeeds. -/
theorem isInfixOfB_of_isInfix {needle hay : List Char}
    (h : List.IsInfix needle hay) : isInfixOfB needle hay = true := by
  obtain ⟨s, t, hst⟩ := h
  rw [← hst]
  exact isInfixOfB_of_append needle s t

set_option maxRecDepth 8000 in
/-- C2 (amended): the rendered schema context is produced once and passed
verbatim — indeed as a prefix — into the inputs (`variables_task`) and body
(`main_task`) instruction payloads, which therefore see an identical view of
the schema; the outputs payload is built without it. -/
theorem schema_summary_prefix_of_variables_and_main (resource_type md : String)
    (arguments : List Attribute) (block_tree : List BlockNode) :
    List.IsPrefix (schema_summary resource_type arguments block_tree).data
      (variables_task_description
        (schema_summary resource_type arguments block_tree) md).data ∧
    List.IsPrefix (schema_summary resource_type arguments block_tree).data
      (main_task_description
        (schema_summary resource_type arguments block_tree) resource_type).data := by
  constructor <;>
  · simp only [variables_task_description, main_task_description,
      String.data_append, List.append_assoc]
    exact List.prefix_append _ _

set_option maxRecDepth 8000 in
/-- C2, counterexample: the outputs-task payload does not contain the rendered
schema context at all — not even for a one-argument schema — because the
summary's `Arguments:` header appears nowhere in it. -/
theorem schema_summary_not_in_outputs_task :
    ¬ List.IsInfix
      (schema_summary "azurerm_route_server" [⟨"name", true⟩] []).data
      (outputs_task_description "azurerm_route_server").data := by
  intro hinf
  have harg : List.IsInfix "Arguments:".data
      (schema_summary "azurerm_route_server" [⟨"name", true⟩] []).data := by
    decide
  have htrue : isInfixOfB "Arguments:".data
      (outputs_task_description "azurerm_route_server").data = true :=
    isInfixOfB_of_isInfix (harg.trans hinf)
  have hfalse : isInfixOfB "Arguments:".data
      (outputs_task_description "azurerm_route_server").data = false := by
    rfl
  rw [htrue] at hfalse
  exact Bool.noConfusion hfalse

/-- The version-pinning text is never empty (it starts with `terraform `). -/
theorem terraform_tf_ne_empty (ps pn pv : String) : terraform_tf ps pn pv ≠ "" := by
  intro h
  have hd := congrArg String.data h
  simp [terraform_tf, String.data_append] at hd

/-- Two module-file paths sharing the folder prefix differ when their file
names differ. -/
theorem append_ne_of_data_ne (a b c : String) (h : b.data ≠ c.data) :
    a ++ b ≠ a ++ c := by
  intro he
  have hd := congrArg String.data he
  simp only [String.data_append] at hd
  simp at hd
  exact h hd

/-- C1 (amended): after sanitization there is no consistency check of any
kind: the output stage writes every non-empty sanitized artifact
unconditionally, so whenever the sanitized body and outputs texts are
non-empty they are both written — whether or not the naming token in the body
agrees with the one referenced in the outputs — and no `NamingMismatchError`
(or any other failure) can occur. -/
theorem no_consistency_check_before_writing (v m o : Option String)
    (ps pn pv rt : String)
    (hm : clean_content (m.getD "") ≠ "") (ho : clean_content (o.getD "") ≠ "") :
    FsOp.write ("modules/" ++ pyLower rt ++ "/main.tf")
      (clean_content (m.getD "")) ∈ output_stage v m o ps pn pv rt ∧
    FsOp.write ("modules/" ++ pyLower rt ++ "/outputs.tf")
      (clean_content (o.getD "")) ∈ output_stage v m o ps pn pv rt := by
  constructor
  · simp only [output_stage, generated]
    refine List.mem_cons_of_mem _ (List.mem_map.mpr
      ⟨("main.tf", clean_content (m.getD "")),
       List.mem_filter.mpr ⟨by simp, bne_iff_ne.mpr hm⟩,
       by rw [String.append_assoc]; rfl⟩)
  · simp only [output_stage, generated]
    refine List.mem_cons_of_mem _ (List.mem_map.mpr
      ⟨("outputs.tf", clean_content (o.getD "")),
       List.mem_filter.mpr ⟨by simp, bne_iff_ne.mpr ho⟩,
       by rw [String.append_assoc]; rfl⟩)

/-- Witness for `no_consistency_check_before_writing`, at a body using the
naming token `st` and an outputs text referencing `stacct`. -/
theorem no_consistency_check_before_writing_witness :
    (clean_content ((some "resource \"azurerm_storage_account\" \"st\" \x7b\x7d" :
        Option String).getD "") ≠ "") ∧
    (clean_content ((some "output \"id\" \x7b value = azurerm_storage_account.stacct.id \x7d" :
        Option String).getD "") ≠ "") ∧
    (FsOp.write ("modules/" ++ pyLower "azurerm_storage_account" ++ "/main.tf")
      (clean_content ((some "resource \"azurerm_storage_account\" \"st\" \x7b\x7d" :
        Option String).getD "")) ∈
      output_stage (some "variable \"name\" \x7b\x7d")
        (some "resource \"azurerm_storage_account\" \"st\" \x7b\x7d")
        (some "output \"id\" \x7b value = azurerm_storage_account.stacct.id \x7d")
        "hashicorp" "azurerm" "4.26.0" "azurerm_storage_account" ∧
     FsOp.write ("modules/" ++ pyLower "azurerm_storage_account" ++ "/outputs.tf")
      (clean_content ((some "output \"id\" \x7b value = azurerm_storage_account.stacct.id \x7d" :
        Option String).getD "")) ∈
      output_stage (some "variable \"name\" \x7b\x7d")
        (some "resource \"azurerm_storage_account\" \"st\" \x7b\x7d")
        (some "output \"id\" \x7b value = azurerm_storage_account.stacct.id \x7d")
        "hashicorp" "azurerm" "4.26.0" "azurerm_storage_account") :=
  ⟨by decide, by decide,
   no_consistency_check_before_writing _ _ _ _ _ _ _ (by decide) (by decide)⟩

/-- C1, counterexample: with a body whose resource declaration uses the token
`st` and an outputs text referencing `stacct`, the run still writes both
(inconsistent) files — nothing extracts the tokens, nothing fails, and nothing
blocks the module from being written. -/
theorem mismatched_naming_tokens_still_written :
    output_stage (some "variable \"name\" \x7b\x7d")
      (some "resource \"azurerm_storage_account\" \"st\" \x7b\x7d")
      (some "output \"id\" \x7b value = azurerm_storage_account.stacct.id \x7d")
      "hashicorp" "azurerm" "4.26.0" "azurerm_storage_account" =
      [.mkdir "modules/azurerm_storage_account",
       .write "modules/azurerm_storage_account/variables.tf"
         "variable \"name\" \x7b\x7d",
       .write "modules/azurerm_storage_account/main.tf"
         "resource \"azurerm_storage_account\" \"st\" \x7b\x7d",
       .write "modules/azurerm_storage_account/outputs.tf"
         "output \"id\" \x7b value = azurerm_storage_account.stacct.id \x7d",
       .write "modules/azurerm_storage_account/terraform.tf"
         (terraform_tf "hashicorp" "azurerm" "4.26.0")] ∧
    List.IsInfix "\"st\"".data
      "resource \"azurerm_storage_account\" \"st\" \x7b\x7d".data ∧
    List.IsInfix "stacct".data
      "output \"id\" \x7b value = azurerm_storage_account.stacct.id \x7d".data :=
  ⟨by rfl, by decide, by decide⟩

/-- C8 (amended): when all three sanitized artifacts are non-empty, the output
stage idempotently ensures the module directory named after the lower-cased
resource type and writes exactly the four files — sanitized inputs, body and
outputs texts plus the deterministically built version-pinning declaration —
and, applied to any pre-existing filesystem, leaves each of the four paths
holding its new content (pre-existing files are overwritten, no merge).  An
artifact whose sanitized text is empty would, however, be skipped
(`if content:`), so the claim's unconditional "four files" does not hold. -/
theorem module_writer_four_files (v m o : Option String) (ps pn pv rt : String)
    (hv : clean_content (v.getD "") ≠ "") (hm : clean_content (m.getD "") ≠ "")
    (ho : clean_content (o.getD "") ≠ "") :
    output_stage v m o ps pn pv rt =
      [FsOp.mkdir ("modules/" ++ pyLower rt),
       FsOp.write ("modules/" ++ pyLower rt ++ "/variables.tf")
         (clean_content (v.getD "")),
       FsOp.write ("modules/" ++ pyLower rt ++ "/main.tf")
         (clean_content (m.getD "")),
       FsOp.write ("modules/" ++ pyLower rt ++ "/outputs.tf")
         (clean_content (o.getD "")),
       FsOp.write ("modules/" ++ pyLower rt ++ "/terraform.tf")
         (terraform_tf ps pn pv)] ∧
    ∀ fs : Fs,
      (applyTrace fs (output_stage v m o ps pn pv rt)).dirs
        ("modules/" ++ pyLower rt) = true ∧
      (applyTrace fs (output_stage v m o ps pn pv rt)).files
        ("modules/" ++ pyLower rt ++ "/variables.tf") =
          some (clean_content (v.getD "")) ∧
      (applyTrace fs (output_stage v m o ps pn pv rt)).files
        ("modules/" ++ pyLower rt ++ "/main.tf") =
          some (clean_content (m.getD "")) ∧
      (applyTrace fs (output_stage v m o ps pn pv rt)).files
        ("modules/" ++ pyLower rt ++ "/outputs.tf") =
          some (clean_content (o.getD "")) ∧
      (applyTrace fs (output_stage v m o ps pn pv rt)).files
        ("modules/" ++ pyLower rt ++ "/terraform.tf") =
          some (terraform_tf ps pn pv) := by
  have hv' := bne_iff_ne.mpr hv
  have hm' := bne_iff_ne.mpr hm
  have ho' := bne_iff_ne.mpr ho
  have ht' := bne_iff_ne.mpr (terraform_tf_ne_empty ps pn pv)
  have htr : output_stage v m o ps pn pv rt =
      [FsOp.mkdir ("modules/" ++ pyLower rt),
       FsOp.write ("modules/" ++ pyLower rt ++ "/variables.tf")
         (clean_content (v.getD "")),
       FsOp.write ("modules/" ++ pyLower rt ++ "/main.tf")
         (clean_content (m.getD "")),
       FsOp.write ("modules/" ++ pyLower rt ++ "/outputs.tf")
         (clean_content (o.getD "")),
       FsOp.write ("modules/" ++ pyLower rt ++ "/terraform.tf")
         (terraform_tf ps pn pv)] := by
    simp only [output_stage, generated, List.filter_cons, hv', hm', ho', ht',
      if_true, List.filter_nil, List.map_cons, List.map_nil,
      String.append_assoc]
    rfl
  refine ⟨htr, ?_⟩
  intro fs
  have n1 : ("modules/" ++ pyLower rt) ++ "/variables.tf" ≠
      ("modules/" ++ pyLower rt) ++ "/main.tf" :=
    append_ne_of_data_ne _ _ _ (by decide)
  have n2 : ("modules/" ++ pyLower rt) ++ "/variables.tf" ≠
      ("modules/" ++ pyLower rt) ++ "/outputs.tf" :=
    append_ne_of_data_ne _ _ _ (by decide)
  have n3 : ("modules/" ++ pyLower rt) ++ "/variables.tf" ≠
      ("modules/" ++ pyLower rt) ++ "/terraform.tf" :=
    append_ne_of_data_ne _ _ _ (by decide)
  have n4 : ("modules/" ++ pyLower rt) ++ "/main.tf" ≠
      ("modules/" ++ pyLower rt) ++ "/outputs.tf" :=
    append_ne_of_data_ne _ _ _ (by decide)
  have n5 : ("modules/" ++ pyLower rt) ++ "/main.tf" ≠
      ("modules/" ++ pyLower rt) ++ "/terraform.tf" :=
    append_ne_of_data_ne _ _ _ (by decide)
  have n6 : ("modules/" ++ pyLower rt) ++ "/outputs.tf" ≠
      ("modules/" ++ pyLower rt) ++ "/terraform.tf" :=
    append_ne_of_data_ne _ _ _ (by decide)
  rw [htr]
  simp only [applyTrace, applyOp]
  refine ⟨by simp, ?_, ?_, ?_, ?_⟩ <;>
    simp [n1, n2, n3, n4, n5, n6, Ne.symm n1, Ne.symm n2, Ne.symm n3,
      Ne.symm n4, Ne.symm n5, Ne.symm n6]

/-- Witness for `module_writer_four_files` at concrete non-empty artifacts. -/
theorem module_writer_four_files_witness :
    (clean_content ((some "v" : Option String).getD "") ≠ "") ∧
    (clean_content ((some "m" : Option String).getD "") ≠ "") ∧
    (clean_content ((some "o" : Option String).getD "") ≠ "") ∧
    (output_stage (some "v") (some "m") (some "o") "hashicorp" "azurerm" "4.26.0"
        "AZURERM_X" =
      [FsOp.mkdir ("modules/" ++ pyLower "AZURERM_X"),
       FsOp.write ("modules/" ++ pyLower "AZURERM_X" ++ "/variables.tf")
         (clean_content ((some "v" : Option String).getD "")),
       FsOp.write ("modules/" ++ pyLower "AZURERM_X" ++ "/main.tf")
         (clean_content ((some "m" : Option String).getD "")),
       FsOp.write ("modules/" ++ pyLower "AZURERM_X" ++ "/outputs.tf")
         (clean_content ((some "o" : Option String).getD "")),
       FsOp.write ("modules/" ++ pyLower "AZURERM_X" ++ "/terraform.tf")
         (terraform_tf "hashicorp" "azurerm" "4.26.0")] ∧
     ∀ fs : Fs,
      (applyTrace fs (output_stage (some "v") (some "m") (some "o") "hashicorp"
        "azurerm" "4.26.0" "AZURERM_X")).dirs ("modules/" ++ pyLower "AZURERM_X") = true ∧
      (applyTrace fs (output_stage (some "v") (some "m") (some "o") "hashicorp"
        "azurerm" "4.26.0" "AZURERM_X")).files
          ("modules/" ++ pyLower "AZURERM_X" ++ "/variables.tf") =
        some (clean_content ((some "v" : Option String).getD "")) ∧
      (applyTrace fs (output_stage (some "v") (some "m") (some "o") "hashicorp"
        "azurerm" "4.26.0" "AZURERM_X")).files
          ("modules/" ++ pyLower "AZURERM_X" ++ "/main.tf") =
        some (clean_content ((some "m" : Option String).getD "")) ∧
      (applyTrace fs (output_stage (some "v") (some "m") (some "o") "hashicorp"
        "azurerm" "4.26.0" "AZURERM_X")).files
          ("modules/" ++ pyLower "AZURERM_X" ++ "/outputs.tf") =
        some (clean_content ((some "o" : Option String).getD "")) ∧
      (applyTrace fs (output_stage (some "v") (some "m") (some "o") "hashicorp"
        "azurerm" "4.26.0" "AZURERM_X")).files
          ("modules/" ++ pyLower "AZURERM_X" ++ "/terraform.tf") =
        some (terraform_tf "hashicorp" "azurerm" "4.26.0")) :=
  ⟨by decide, by decide, by decide,
   module_writer_four_files _ _ _ _ _ _ _ (by decide) (by decide) (by decide)⟩

/-- C8, counterexample: three raw artifacts that sanitize to the empty string
(a bare fence pair, a pure doc comment, whitespace) are all skipped by the
`if content:` guard, so only the version-pinning file is written — not four
files. -/
theorem empty_artifacts_are_skipped :
    output_stage (some "``````") (some "/**x*/") (some "   ")
      "hashicorp" "azurerm" "4.26.0" "azurerm_storage_account" =
      [FsOp.mkdir "modules/azurerm_storage_account",
       FsOp.write "modules/azurerm_storage_account/terraform.tf"
         (terraform_tf "hashicorp" "azurerm" "4.26.0")] := by
  rfl

/-- C9 (amended): the output stage performs no rename at all, and every write
opens one of the four final module-file paths directly — there is no
temporary-name-then-rename discipline, so an aborted run can leave a partially
written file visible under its final name. -/
theorem writes_are_direct_with_no_rename (v m o : Option String)
    (ps pn pv rt : String) :
    (output_stage v m o ps pn pv rt).all (fun op => match op with
      | .rename _ _ => false
      | .mkdir _ => true
      | .write p _ => decide (p ∈ module_file_paths rt)) = true := by
  rw [List.all_eq_true]
  intro op hop
  simp only [output_stage, generated] at hop
  rcases List.mem_cons.mp hop with h | h
  · subst h; rfl
  · rcases List.mem_map.mp h with ⟨fc, hfc, hfceq⟩
    have hmem := (List.mem_filter.mp hfc).1
    rw [← hfceq]
    simp only [decide_eq_true_eq]
    simp only [List.mem_cons, List.not_mem_nil, or_false] at hmem
    rcases hmem with h1 | h1 | h1 | h1 <;>
      rw [h1] <;> simp [module_file_paths]

/-- C9, counterexample: a concrete run's full operation trace — the artifact
files are opened and written at their final paths, and the trace contains no
rename operation of any kind. -/
theorem artifact_write_trace_has_no_rename :
    output_stage (some "v") (some "m") (some "o") "hashicorp" "azurerm"
      "4.26.0" "azurerm_x" =
      [FsOp.mkdir "modules/azurerm_x",
       FsOp.write "modules/azurerm_x/variables.tf" "v",
       FsOp.write "modules/azurerm_x/main.tf" "m",
       FsOp.write "modules/azurerm_x/outputs.tf" "o",
       FsOp.write "modules/azurerm_x/terraform.tf"
         (terraform_tf "hashicorp" "azurerm" "4.26.0")] ∧
    (∀ op ∈ output_stage (some "v") (some "m") (some "o") "hashicorp" "azurerm"
      "4.26.0" "azurerm_x", op.isRename = false) ∧
    FsOp.write "modules/azurerm_x/main.tf" "m" ∈
      output_stage (some "v") (some "m") (some "o") "hashicorp" "azurerm"
        "4.26.0" "azurerm_x" :=
  ⟨by rfl, by decide, by decide⟩
